import Mathlib

/-!
Shallow embedding of `pkg/watcher/pv_watcher.go` from the
ibm-vpc-block-csi-driver vendored watcher package.

Modelling conventions:
* Go strings are `String`; `v1.PersistentVolumePhase` is a string-typed
  enumeration whose zero value is `""`.
* Go maps (`map[string]string`, the capacity `ResourceList`) are association
  lists; indexing a missing key yields the zero value (`""` / `0`), as in Go.
* Go `int64` is `Int`; Go integer division truncates toward zero, which is
  `Int.tdiv`.  No overflow is possible in `BytesToGiB` (positive divisor).
* Nil-pointer dereference in Go panics; the panic is caught by the task's
  deferred `recover`, so the task stops without performing any further calls.
  All dereferences in `updateVolume`/`getVolumeFromPV`/`getTags` happen before
  the first provider call, so a fallible function returns `Option`, with
  `none` meaning the task panicked before any observable provider effect.
* The provider session and the outcomes of the two `UpdateVolume` calls are
  external; they are injected through `ProviderEnv`.  The observable behaviour
  of one `updateVolume` task (which calls were made, which events were
  emitted) is collected in `UpdateVolumeResult`.
-/

namespace Watcher

/-! ### Constants from the source file -/

def ReclaimPolicyTag : String := "reclaimpolicy:"

def NameSpaceTag : String := "namespace:"

def StorageClassTag : String := "storageclass:"

def PVCNameTag : String := "pvc:"

def PVNameTag : String := "pv:"

def VolumeCRN : String := "volumeCRN"

def ProvisionerTag : String := "provisioner:"

def VolumeStatus : String := "status"

def VolumeStatusCreated : String := "created"

def VolumeStatusDeleted : String := "deleted"

def VolumeUpdateEventReason : String := "VolumeMetaDataSaved"

def VolumeUpdateEventSuccess : String := "Success"

def ClusterIDLabel : String := "clusterID"

def IOPSLabel : String := "iops"

/-- Source constant: `GiB = 1024 * 1024 * 1024` bytes. -/
def GiB : Int := 1024 * 1024 * 1024

/-- Constant `v1.ResourceStorage`, the key used into `pv.Spec.Capacity`. -/
def ResourceStorage : String := "storage"

/-- Phase constant `v1.VolumeBound`. -/
def VolumeBound : String := "Bound"

/-- Phase constant `v1.VolumeReleased`. -/
def VolumeReleased : String := "Released"

/-- Phase constant `v1.VolumePending`. -/
def VolumePending : String := "Pending"

/-- Event-type constant `v1.EventTypeNormal`. -/
def EventTypeNormal : String := "Normal"

/-- Event-type constant `v1.EventTypeWarning`. -/
def EventTypeWarning : String := "Warning"

/-! ### Go map and string primitives -/

/-- Indexing a Go `map[string]string`: missing key yields the zero value `""`. -/
def mapGet (m : List (String × String)) (k : String) : String :=
  match m.find? (fun p => p.1 == k) with
  | some p => p.2
  | none => ""

/-- Indexing the capacity `ResourceList` and taking `.Value()`: a missing
key yields the zero `resource.Quantity`, whose value is `0`. -/
def mapGetInt (m : List (String × Int)) (k : String) : Int :=
  match m.find? (fun p => p.1 == k) with
  | some p => p.2
  | none => 0

/-- Go map assignment `m[k] = v`: overwrite an existing entry, else append. -/
def mapSet (m : List (String × String)) (k v : String) : List (String × String) :=
  if m.any (fun p => p.1 == k) then
    m.map (fun p => if p.1 == k then (k, v) else p)
  else
    m ++ [(k, v)]

/-- The whitespace recognized by Go's `unicode.IsSpace` in the Latin-1 range
(`\t`, `\n`, `\v`, `\f`, `\r`, space, NEL, NBSP); the attribute strings in
scope here are ASCII. -/
def goIsSpace (c : Char) : Bool :=
  c == ' ' || c == '\t' || c == '\n' || c == '\x0b' || c == '\x0c' ||
    c == '\r' || c == '\u0085' || c == '\u00A0'

/-- Go `strings.TrimSpace`: drop leading and trailing whitespace. -/
def trimSpace (s : String) : String :=
  String.mk (((s.data.dropWhile goIsSpace).reverse.dropWhile goIsSpace).reverse)

/-- Splitting accumulator: split a character list at commas. -/
def splitCommaAux : List Char → List Char → List String
  | [], acc => [String.mk acc.reverse]
  | c :: cs, acc =>
    if c == ',' then String.mk acc.reverse :: splitCommaAux cs []
    else splitCommaAux cs (c :: acc)

/-- Go `strings.Split(s, ",")` for the single-character separator `","`. -/
def splitComma (s : String) : List String :=
  splitCommaAux s.data []

/-- Go `strings.ToLower` (the strings in scope are ASCII). -/
def toLower (s : String) : String :=
  String.mk (s.data.map Char.toLower)

/-! ### Data model (the fields of the Kubernetes objects that the code reads) -/

/-- Structure `metav1.ObjectMeta` (only `Name` is read). -/
structure ObjectMeta where
  Name : String
deriving DecidableEq, Repr

/-- Structure `v1.ObjectReference` for `pv.Spec.ClaimRef` (a nil-able pointer in Go). -/
structure ObjectReference where
  Namespace : String
  Name : String
deriving DecidableEq, Repr

/-- Structure `v1.CSIPersistentVolumeSource` (`pv.Spec.CSI`, a nil-able pointer in Go). -/
structure CSIPersistentVolumeSource where
  Driver : String
  VolumeHandle : String
  VolumeAttributes : List (String × String)
deriving DecidableEq, Repr

/-- The fields of `v1.PersistentVolumeSpec` the watcher reads. -/
structure PersistentVolumeSpec where
  Capacity : List (String × Int)
  CSI : Option CSIPersistentVolumeSource
  PersistentVolumeReclaimPolicy : String
  StorageClassName : String
  ClaimRef : Option ObjectReference
deriving DecidableEq, Repr

/-- Structure `v1.PersistentVolumeStatus`; `Phase` is string-typed with zero value `""`. -/
structure PersistentVolumeStatus where
  Phase : String
deriving DecidableEq, Repr

/-- Structure `v1.PersistentVolume`. -/
structure PersistentVolume where
  ObjectMeta : ObjectMeta
  Spec : PersistentVolumeSpec
  Status : PersistentVolumeStatus
deriving DecidableEq, Repr

/-- The fields of `provider.Volume` the watcher writes.  `Tags` is a Go slice
(nil when never assigned, modelled as `[]`); `Capacity` and `Iops` are
nil-able pointers. -/
structure Volume where
  VolumeID : String
  Provider : String
  VolumeType : String
  CRN : String
  Attributes : List (String × String)
  Tags : List String
  Capacity : Option Int
  Iops : Option String
deriving DecidableEq, Repr

/-- The state of a `PVWatcher` read during event handling: the configured
provisioner name, the configured VPC block provider type, and the
provisioner-name → volume-type registry (`VolumeTypeMap`, written once at
construction). -/
structure PVWatcher where
  provisionerName : String
  vpcBlockProviderType : String
  volumeTypeMap : List (String × String)
deriving DecidableEq, Repr

/-- One notification pushed through `pvw.recorder.Event(newpv, eventtype,
reason, message)`. -/
structure Event where
  eventtype : String
  reason : String
  message : String
deriving DecidableEq, Repr

/-- The session returned by `GetProviderSession`: either an
`*iks_vpc_provider.IksVpcSession` (the type assertion succeeds) or some other
session type (the assertion fails). -/
inductive ProviderSession where
  | iksVpcSession : ProviderSession
  | otherSession : ProviderSession
deriving DecidableEq, Repr

/-- External inputs to one `updateVolume` task: the session (or `none`), and
the error returned by each of the two `UpdateVolume` calls if that call is
made (`none` = the call succeeds). -/
structure ProviderEnv where
  session : Option ProviderSession
  metadataErr : Option String
  tagSyncErr : Option String
deriving DecidableEq, Repr

/-- The observable behaviour of one `updateVolume` task: whether it returned
at the no-change skip, whether it asked for a provider session, how many
times it called the metadata `UpdateVolume` (`iksVpc.UpdateVolume`) and the
tag-sync `UpdateVolume` (`iksVpc.VPCSession.UpdateVolume`), and the events it
emitted, in order. -/
structure UpdateVolumeResult where
  skipped : Bool
  sessionRequested : Bool
  metadataCalls : Nat
  tagSyncCalls : Nat
  events : List Event
deriving DecidableEq, Repr

/-! ### The watcher's functions -/

/-- Function `BytesToGiB` converts bytes to GiB: Go `int64` division truncates toward
zero (`Int.tdiv`). -/
def BytesToGiB (volumeSizeBytes : Int) : Int :=
  Int.tdiv volumeSizeBytes GiB

/-- Function `filter`: the object is admitted iff it is a non-nil `*v1.PersistentVolume`
with `pv.Spec.CSI != nil` and `pv.Spec.CSI.Driver == pvw.provisionerName`. -/
def filter (pvw : PVWatcher) (obj : Option PersistentVolume) : Bool :=
  match obj with
  | none => false
  | some pv =>
    match pv.Spec.CSI with
    | none => false
    | some csi => csi.Driver == pvw.provisionerName

/-- Function `getTags`: trim the `tags` attribute, split on commas when non-empty,
then append the seven derived tags in source order; returns the `volumeCRN`
attribute alongside.  `none` models the nil-pointer panic when `pv.Spec.CSI`
or `pv.Spec.ClaimRef` is nil. -/
def getTags (pvw : PVWatcher) (pv : PersistentVolume) :
    Option (String × List String) :=
  match pv.Spec.CSI, pv.Spec.ClaimRef with
  | some csi, some claimRef =>
    let volAttributes := csi.VolumeAttributes
    let tagstr := trimSpace (mapGet volAttributes "tags")
    let tags : List String := if tagstr.length > 0 then splitComma tagstr else []
    let tags := tags ++ [ClusterIDLabel ++ ":" ++ mapGet volAttributes ClusterIDLabel]
    let tags := tags ++ [ReclaimPolicyTag ++ pv.Spec.PersistentVolumeReclaimPolicy]
    let tags := tags ++ [StorageClassTag ++ pv.Spec.StorageClassName]
    let tags := tags ++ [NameSpaceTag ++ claimRef.Namespace]
    let tags := tags ++ [PVCNameTag ++ claimRef.Name]
    let tags := tags ++ [PVNameTag ++ pv.ObjectMeta.Name]
    let tags := tags ++ [ProvisionerTag ++ pvw.provisionerName]
    some (mapGet volAttributes VolumeCRN, tags)
  | _, _ => none

/-- Function `getVolumeFromPV`: build the `provider.Volume` descriptor.  The
lower-cased cluster-id attribute is set before the phase check; the
`Released` branch then only adds `status = deleted`, while the other branch
adds tags, capacity in GiB, the IOPS string and `status = created`. -/
def getVolumeFromPV (pvw : PVWatcher) (pv : PersistentVolume) : Option Volume :=
  match getTags pvw pv, pv.Spec.CSI with
  | some (crn, tags), some csi =>
    let clusterID := mapGet csi.VolumeAttributes ClusterIDLabel
    let volume : Volume :=
      { VolumeID := csi.VolumeHandle
        Provider := pvw.vpcBlockProviderType
        VolumeType := mapGet pvw.volumeTypeMap csi.Driver
        CRN := crn
        Attributes := [(toLower ClusterIDLabel, clusterID)]
        Tags := []
        Capacity := none
        Iops := none }
    if pv.Status.Phase == VolumeReleased then
      some { volume with
              Attributes := mapSet volume.Attributes VolumeStatus VolumeStatusDeleted }
    else
      let capacity := mapGetInt pv.Spec.Capacity ResourceStorage
      let capacityGiB := BytesToGiB capacity
      some { volume with
              Tags := tags
              Capacity := some capacityGiB
              Iops := some (mapGet csi.VolumeAttributes IOPSLabel)
              Attributes := mapSet volume.Attributes VolumeStatus VolumeStatusCreated }
  | _, _ => none

/-- The part of `updateVolume` from `GetProviderSession` on, parameterised by
the local `newStatus`/`oldStatus` variables (which keep their zero value `""`
when `oldobj` was nil).  A nil session or a failed type assertion performs no
update; otherwise the metadata `UpdateVolume` is called once (a failure emits
a warning event and the task continues), and the tag-sync `UpdateVolume` is
called once iff `newStatus != oldStatus && newStatus == v1.VolumeBound`,
emitting a success event on success and a warning event on failure. -/
def updateVolumeSessionPhase (pvw : PVWatcher) (newpv : PersistentVolume)
    (env : ProviderEnv) (newStatus oldStatus : String) :
    Option UpdateVolumeResult :=
  match env.session with
  | none =>
    some { skipped := false, sessionRequested := true,
           metadataCalls := 0, tagSyncCalls := 0, events := [] }
  | some ProviderSession.otherSession =>
    some { skipped := false, sessionRequested := true,
           metadataCalls := 0, tagSyncCalls := 0, events := [] }
  | some ProviderSession.iksVpcSession =>
    match getVolumeFromPV pvw newpv with
    | none => none
    | some _volume =>
      let metaEvents : List Event :=
        match env.metadataErr with
        | some e => [Event.mk EventTypeWarning VolumeUpdateEventReason e]
        | none => []
      if newStatus != oldStatus && newStatus == VolumeBound then
        match env.tagSyncErr with
        | some e =>
          some { skipped := false, sessionRequested := true,
                 metadataCalls := 1, tagSyncCalls := 1,
                 events := metaEvents ++
                   [Event.mk EventTypeWarning VolumeUpdateEventReason e] }
        | none =>
          some { skipped := false, sessionRequested := true,
                 metadataCalls := 1, tagSyncCalls := 1,
                 events := metaEvents ++
                   [Event.mk EventTypeNormal VolumeUpdateEventReason
                     VolumeUpdateEventSuccess] }
      else
        some { skipped := false, sessionRequested := true,
               metadataCalls := 1, tagSyncCalls := 0, events := metaEvents }

/-- Function `updateVolume`: the per-event task body.  `oldStatus`/`newStatus` start at
the zero value `""` and are assigned only when `oldobj != nil`; with an old
snapshot present, the task returns at the skip check when status phase,
capacity value and IOPS attribute are all unchanged.  `none` models a panic
(recovered by the deferred `recover`) before any provider call. -/
def updateVolume (pvw : PVWatcher) (oldobj : Option PersistentVolume)
    (newpv : PersistentVolume) (env : ProviderEnv) :
    Option UpdateVolumeResult :=
  match oldobj with
  | some oldpv =>
    let oldCapacity := mapGetInt oldpv.Spec.Capacity ResourceStorage
    let capacity := mapGetInt newpv.Spec.Capacity ResourceStorage
    match newpv.Spec.CSI, oldpv.Spec.CSI with
    | some newcsi, some oldcsi =>
      let iops := mapGet newcsi.VolumeAttributes IOPSLabel
      let oldiops := mapGet oldcsi.VolumeAttributes IOPSLabel
      let newStatus := newpv.Status.Phase
      let oldStatus := oldpv.Status.Phase
      if newStatus == oldStatus && oldCapacity == capacity && oldiops == iops then
        some { skipped := true, sessionRequested := false,
               metadataCalls := 0, tagSyncCalls := 0, events := [] }
      else
        updateVolumeSessionPhase pvw newpv env newStatus oldStatus
    | _, _ => none
  | none =>
    updateVolumeSessionPhase pvw newpv env "" ""

/-! ### Derived descriptions of the emitted events (named forms of the event
lists built inline in `updateVolumeSessionPhase`, for use in statements) -/

/-- Events emitted by the metadata-update phase: a warning carrying the error
text when the call fails, nothing when it succeeds. -/
def metaEventsOf (metadataErr : Option String) : List Event :=
  match metadataErr with
  | some e => [Event.mk EventTypeWarning VolumeUpdateEventReason e]
  | none => []

/-- Events emitted by the tag-sync phase when it runs: a warning carrying the
error text on failure, a normal success notification on success. -/
def tagSyncEventsOf (tagSyncErr : Option String) : List Event :=
  match tagSyncErr with
  | some e => [Event.mk EventTypeWarning VolumeUpdateEventReason e]
  | none => [Event.mk EventTypeNormal VolumeUpdateEventReason VolumeUpdateEventSuccess]

/-! ### Concrete fixtures used to exercise the theorems -/

/-- A watcher configured like the driver registers it. -/
def pvwEx : PVWatcher :=
  { provisionerName := "vpc.block.csi.ibm.io"
    vpcBlockProviderType := "vpc-block"
    volumeTypeMap := [("vpc.block.csi.ibm.io", "VPC")] }

/-- A CSI source with user tags `"a,b"`, a cluster id, IOPS and a CRN. -/
def csiEx : CSIPersistentVolumeSource :=
  { Driver := "vpc.block.csi.ibm.io"
    VolumeHandle := "vol-1"
    VolumeAttributes :=
      [("tags", "a,b"), ("clusterID", "cluster-1"), ("iops", "3000"),
       ("volumeCRN", "crn:1")] }

/-- A CSI source whose `tags` attribute is whitespace-only. -/
def csiExNoTags : CSIPersistentVolumeSource :=
  { Driver := "vpc.block.csi.ibm.io"
    VolumeHandle := "vol-2"
    VolumeAttributes :=
      [("tags", "  "), ("clusterID", "cluster-1"), ("iops", "3000"),
       ("volumeCRN", "crn:2")] }

/-- The claim reference used by the fixtures. -/
def claimRefEx : ObjectReference := { Namespace := "default", Name := "claim-1" }

/-- A 10Gi persistent volume in the given phase, carrying `csiEx`. -/
def pvEx (phase : String) : PersistentVolume :=
  { ObjectMeta := { Name := "pv-1" }
    Spec :=
      { Capacity := [("storage", 10737418240)]
        CSI := some csiEx
        PersistentVolumeReclaimPolicy := "Delete"
        StorageClassName := "sc"
        ClaimRef := some claimRefEx }
    Status := { Phase := phase } }

/-- A persistent volume like `pvEx` but with whitespace-only user tags. -/
def pvExNoTags (phase : String) : PersistentVolume :=
  { ObjectMeta := { Name := "pv-2" }
    Spec :=
      { Capacity := [("storage", 10737418240)]
        CSI := some csiExNoTags
        PersistentVolumeReclaimPolicy := "Delete"
        StorageClassName := "sc"
        ClaimRef := some claimRefEx }
    Status := { Phase := phase } }

/-- An environment where the session is a valid IKS-VPC session and both
provider calls succeed. -/
def envOk : ProviderEnv :=
  { session := some ProviderSession.iksVpcSession
    metadataErr := none, tagSyncErr := none }

/-- An environment where the metadata update fails with "boom" and the
tag-sync call fails with "tagfail". -/
def envBad : ProviderEnv :=
  { session := some ProviderSession.iksVpcSession
    metadataErr := some "boom", tagSyncErr := some "tagfail" }

/-- The tombstone descriptor built from `pvEx VolumeReleased` by
`getVolumeFromPV pvwEx`. -/
def volRelEx : Volume :=
  { VolumeID := "vol-1"
    Provider := "vpc-block"
    VolumeType := "VPC"
    CRN := "crn:1"
    Attributes := [("clusterid", "cluster-1"), ("status", "deleted")]
    Tags := []
    Capacity := none
    Iops := none }

/-- The result of a skipped task. -/
def rSkip : UpdateVolumeResult :=
  { skipped := true, sessionRequested := false,
    metadataCalls := 0, tagSyncCalls := 0, events := [] }

/-- The result of a task that performed only the metadata update, with no
events (both calls successful, gate closed). -/
def rMetaOnly : UpdateVolumeResult :=
  { skipped := false, sessionRequested := true,
    metadataCalls := 1, tagSyncCalls := 0, events := [] }

/-- The result of a task that performed both calls successfully. -/
def rSuccess : UpdateVolumeResult :=
  { skipped := false, sessionRequested := true,
    metadataCalls := 1, tagSyncCalls := 1,
    events := [Event.mk EventTypeNormal VolumeUpdateEventReason
      VolumeUpdateEventSuccess] }

/-- The result of a task under `envBad` with the tag-sync gate open: both
calls fail, two warning events. -/
def rBothFail : UpdateVolumeResult :=
  { skipped := false, sessionRequested := true,
    metadataCalls := 1, tagSyncCalls := 1,
    events := [Event.mk EventTypeWarning VolumeUpdateEventReason "boom",
               Event.mk EventTypeWarning VolumeUpdateEventReason "tagfail"] }

/-! ### Helper lemmas -/

/-- Whenever the session phase of `updateVolume` completes, it did not take
the skip return and it did request a provider session. -/
theorem sessionPhase_shape (pvw : PVWatcher) (newpv : PersistentVolume)
    (env : ProviderEnv) (ns os : String) (r : UpdateVolumeResult)
    (hr : updateVolumeSessionPhase pvw newpv env ns os = some r) :
    r.skipped = false ∧ r.sessionRequested = true := by
  unfold updateVolumeSessionPhase at hr
  repeat' split at hr
  all_goals
    first
      | exact Option.noConfusion hr
      | (injection hr with h; subst h; exact ⟨rfl, rfl⟩)

/-- Behaviour of the session phase with a valid IKS-VPC session: exactly one
metadata call; the tag-sync call happens iff the local status variables
satisfy the gate; events are the metadata-phase events followed by the
tag-sync-phase events when the gate fired. -/
theorem sessionPhase_iks (pvw : PVWatcher) (newpv : PersistentVolume)
    (env : ProviderEnv) (ns os : String) (r : UpdateVolumeResult)
    (hs : env.session = some ProviderSession.iksVpcSession)
    (hr : updateVolumeSessionPhase pvw newpv env ns os = some r) :
    r.skipped = false ∧ r.sessionRequested = true ∧ r.metadataCalls = 1 ∧
      r.tagSyncCalls = (if ns ≠ os ∧ ns = VolumeBound then 1 else 0) ∧
      r.events = metaEventsOf env.metadataErr ++
        (if ns ≠ os ∧ ns = VolumeBound then tagSyncEventsOf env.tagSyncErr
         else []) := by
  rcases env with ⟨sess, me, te⟩
  simp only at hs
  subst hs
  unfold updateVolumeSessionPhase at hr
  simp only at hr
  rcases hvol : getVolumeFromPV pvw newpv with _ | v
  · rw [hvol] at hr
    exact Option.noConfusion hr
  · rw [hvol] at hr
    have hiff : ((ns != os && ns == VolumeBound) = true) ↔
        (ns ≠ os ∧ ns = VolumeBound) := by
      simp [bne_iff_ne]
    by_cases hb' : ns ≠ os ∧ ns = VolumeBound
    · rw [if_pos (hiff.mpr hb')] at hr
      rcases te with _ | e2
      all_goals
        injection hr with h
        subst h
        simp [metaEventsOf, tagSyncEventsOf, if_pos hb']
    · rw [if_neg (fun h => hb' (hiff.mp h))] at hr
      injection hr with h
      subst h
      simp [metaEventsOf, if_neg hb']

/-! ### Claims -/

/-- C1: for every event with an old snapshot present (and a valid IKS-VPC
provider session, so that the task can reach the update protocol), the
tag-synchronization call — the second `UpdateVolume`, on `VPCSession` — is
performed iff the old status phase is not `Bound` and the new status phase is
`Bound`; in particular it is not performed for `Bound → Bound`,
`Bound → Released`, or `Pending → Pending` transitions. -/
theorem tagSync_iff_firstBound (pvw : PVWatcher) (oldpv newpv : PersistentVolume)
    (env : ProviderEnv) (r : UpdateVolumeResult)
    (hs : env.session = some ProviderSession.iksVpcSession)
    (hr : updateVolume pvw (some oldpv) newpv env = some r) :
    0 < r.tagSyncCalls ↔
      (oldpv.Status.Phase ≠ VolumeBound ∧ newpv.Status.Phase = VolumeBound) := by
  simp only [updateVolume] at hr
  rcases hn : newpv.Spec.CSI with _ | newcsi
  · rw [hn] at hr
    simp at hr
  · rcases ho : oldpv.Spec.CSI with _ | oldcsi
    · rw [hn, ho] at hr
      simp at hr
    · rw [hn, ho] at hr
      simp only at hr
      by_cases hskip : (newpv.Status.Phase == oldpv.Status.Phase &&
          (mapGetInt oldpv.Spec.Capacity ResourceStorage ==
            mapGetInt newpv.Spec.Capacity ResourceStorage) &&
          (mapGet oldcsi.VolumeAttributes IOPSLabel ==
            mapGet newcsi.VolumeAttributes IOPSLabel)) = true
      · rw [if_pos hskip] at hr
        injection hr with h
        subst h
        have hph : newpv.Status.Phase = oldpv.Status.Phase := by
          have := hskip
          simp only [Bool.and_eq_true, beq_iff_eq] at this
          exact this.1.1
        simp only [Nat.lt_irrefl, false_iff]
        intro hcon
        exact hcon.1 (hph.symm.trans hcon.2)
      · rw [if_neg hskip] at hr
        have h := sessionPhase_iks pvw newpv env newpv.Status.Phase
          oldpv.Status.Phase r hs hr
        rw [h.2.2.2.1]
        by_cases hg : newpv.Status.Phase ≠ oldpv.Status.Phase ∧
            newpv.Status.Phase = VolumeBound
        · rw [if_pos hg]
          constructor
          · intro _
            exact ⟨fun hob => hg.1 (hg.2.trans hob.symm), hg.2⟩
          · intro _
            exact Nat.zero_lt_one
        · rw [if_neg hg]
          simp only [Nat.lt_irrefl, false_iff]
          intro hcon
          exact hg ⟨fun heq => hcon.1 (heq.symm.trans hcon.2), hcon.2⟩

/-- Witness for C1: a `Pending → Bound` event under a valid session performs
the tag-sync call (`rSuccess.tagSyncCalls = 1`), and the gate condition
holds. -/
theorem tagSync_iff_firstBound_witness :
    0 < rSuccess.tagSyncCalls ↔
      ((pvEx VolumePending).Status.Phase ≠ VolumeBound ∧
        (pvEx VolumeBound).Status.Phase = VolumeBound) :=
  tagSync_iff_firstBound pvwEx (pvEx VolumePending) (pvEx VolumeBound) envOk
    rSuccess rfl (by decide)

/-- C2: for every event where an old snapshot exists and the status phase,
the capacity value and the IOPS attribute string are all unchanged, the task
returns at the skip check: no provider session is obtained and zero provider
update calls are made. -/
theorem skip_of_no_material_change (pvw : PVWatcher)
    (oldpv newpv : PersistentVolume) (env : ProviderEnv)
    (newcsi oldcsi : CSIPersistentVolumeSource)
    (hn : newpv.Spec.CSI = some newcsi) (ho : oldpv.Spec.CSI = some oldcsi)
    (hp : newpv.Status.Phase = oldpv.Status.Phase)
    (hc : mapGetInt oldpv.Spec.Capacity ResourceStorage =
      mapGetInt newpv.Spec.Capacity ResourceStorage)
    (hi : mapGet oldcsi.VolumeAttributes IOPSLabel =
      mapGet newcsi.VolumeAttributes IOPSLabel) :
    updateVolume pvw (some oldpv) newpv env = some rSkip := by
  simp only [updateVolume]
  rw [hn, ho]
  simp [rSkip, hp, hc, hi]

/-- Witness for C2: a `Bound → Bound` event with unchanged capacity and IOPS
is skipped with no session request and zero calls. -/
theorem skip_of_no_material_change_witness :
    updateVolume pvwEx (some (pvEx VolumeBound)) (pvEx VolumeBound) envOk =
      some rSkip :=
  skip_of_no_material_change pvwEx (pvEx VolumeBound) (pvEx VolumeBound) envOk
    csiEx csiEx rfl rfl rfl rfl rfl

/-- C3: for every event whose old snapshot is absent, the skip check is
bypassed and the task proceeds to the update protocol: whenever the task
completes it has requested a provider session and has not skipped. -/
theorem firstObservation_material (pvw : PVWatcher) (newpv : PersistentVolume)
    (env : ProviderEnv) (r : UpdateVolumeResult)
    (hr : updateVolume pvw none newpv env = some r) :
    r.skipped = false ∧ r.sessionRequested = true := by
  unfold updateVolume at hr
  exact sessionPhase_shape pvw newpv env "" "" r hr

/-- Witness for C3: a first observation of a `Pending` volume requests a
session and performs the metadata update. -/
theorem firstObservation_material_witness :
    rMetaOnly.skipped = false ∧ rMetaOnly.sessionRequested = true :=
  firstObservation_material pvwEx (pvEx VolumePending) envOk rMetaOnly
    (by decide)

/-- C10: for every event whose old snapshot is absent, the tag-sync call is
never performed, even when the new snapshot's phase is `Bound`: the local
`oldStatus`/`newStatus` variables are assigned only when an old snapshot
exists, so both hold the zero value `""` and the gate
`newStatus != oldStatus && newStatus == VolumeBound` is false. -/
theorem no_tagSync_on_first_observation (pvw : PVWatcher)
    (newpv : PersistentVolume) (env : ProviderEnv) (r : UpdateVolumeResult)
    (hr : updateVolume pvw none newpv env = some r) :
    r.tagSyncCalls = 0 := by
  unfold updateVolume at hr
  rcases hs : env.session with _ | s
  · unfold updateVolumeSessionPhase at hr
    rw [hs] at hr
    injection hr with h
    subst h
    rfl
  · cases s
    · have h := sessionPhase_iks pvw newpv env "" "" r hs hr
      rw [h.2.2.2.1, if_neg]
      intro hcon
      exact hcon.1 rfl
    · unfold updateVolumeSessionPhase at hr
      rw [hs] at hr
      injection hr with h
      subst h
      rfl

/-- Witness for C10: a first observation whose new snapshot is already
`Bound` still performs no tag-sync call. -/
theorem no_tagSync_on_first_observation_witness : rMetaOnly.tagSyncCalls = 0 :=
  no_tagSync_on_first_observation pvwEx (pvEx VolumeBound) envOk rMetaOnly
    (by decide)

/-- C4: for every snapshot whose status phase is `Released`, the descriptor
built by `getVolumeFromPV` has the status attribute set to `deleted`, an
empty (nil) tag list, nil capacity and nil IOPS. -/
theorem released_tombstone (pvw : PVWatcher) (pv : PersistentVolume)
    (v : Volume) (hp : pv.Status.Phase = VolumeReleased)
    (hv : getVolumeFromPV pvw pv = some v) :
    mapGet v.Attributes VolumeStatus = VolumeStatusDeleted ∧
      v.Tags = [] ∧ v.Capacity = none ∧ v.Iops = none := by
  simp only [getVolumeFromPV] at hv
  rcases ht : getTags pvw pv with _ | ct
  · rw [ht] at hv
    simp at hv
  · rcases hcsi : pv.Spec.CSI with _ | csi
    · rw [ht, hcsi] at hv
      simp at hv
    · rcases ct with ⟨crn, tags⟩
      rw [ht, hcsi] at hv
      simp only at hv
      rw [if_pos (by simp [hp])] at hv
      injection hv with h
      subst h
      have hkey : ((toLower ClusterIDLabel) == VolumeStatus) =
          false := by decide
      refine ⟨?_, rfl, rfl, rfl⟩
      simp [mapSet, mapGet, hkey]

/-- Witness for C4: the released fixture yields a descriptor with status
`deleted`, no tags, nil capacity and nil IOPS. -/
theorem released_tombstone_witness :
    mapGet volRelEx.Attributes VolumeStatus = VolumeStatusDeleted ∧
      volRelEx.Tags = [] ∧ volRelEx.Capacity = none ∧ volRelEx.Iops = none :=
  released_tombstone pvwEx (pvEx VolumeReleased) volRelEx rfl (by decide)

/-- C5 counterexample: the claim says the tombstone descriptor's attribute
map contains only the status attribute and no clusterid entry, but for the
concrete `Released` snapshot `pvEx VolumeReleased` the attribute map is
`[("clusterid", "cluster-1"), ("status", "deleted")]` — the lower-cased
cluster-id attribute is attached before the phase check and is therefore
present in the tombstone as well. -/
theorem released_clusterid_counterexample :
    (pvEx VolumeReleased).Status.Phase = VolumeReleased ∧
      (getVolumeFromPV pvwEx (pvEx VolumeReleased)).map Volume.Attributes =
        some [("clusterid", "cluster-1"), ("status", "deleted")] := by
  exact ⟨rfl, by decide⟩

/-- C5 amended: the lower-cased cluster-id attribute is attached in every
case; for a snapshot with status phase `Released` the descriptor's attribute
map holds exactly the lower-cased cluster-id entry followed by
`status = deleted`. -/
theorem released_attributes_amended (pvw : PVWatcher) (pv : PersistentVolume)
    (csi : CSIPersistentVolumeSource) (v : Volume)
    (hcsi : pv.Spec.CSI = some csi)
    (hp : pv.Status.Phase = VolumeReleased)
    (hv : getVolumeFromPV pvw pv = some v) :
    v.Attributes = [(toLower ClusterIDLabel,
        mapGet csi.VolumeAttributes ClusterIDLabel),
      (VolumeStatus, VolumeStatusDeleted)] := by
  simp only [getVolumeFromPV] at hv
  rcases ht : getTags pvw pv with _ | ct
  · rw [ht] at hv
    simp at hv
  · rcases ct with ⟨crn, tags⟩
    rw [ht, hcsi] at hv
    simp only at hv
    rw [if_pos (by simp [hp])] at hv
    injection hv with h
    subst h
    have hkey : ((toLower ClusterIDLabel) == VolumeStatus) =
        false := by decide
    simp [mapSet, hkey]

/-- Witness for C5 (amended): the released fixture's attribute map is exactly
the clusterid entry followed by the status entry. -/
theorem released_attributes_amended_witness :
    volRelEx.Attributes = [(toLower ClusterIDLabel,
        mapGet csiEx.VolumeAttributes ClusterIDLabel),
      (VolumeStatus, VolumeStatusDeleted)] :=
  released_attributes_amended pvwEx (pvEx VolumeReleased) csiEx volRelEx rfl
    rfl (by decide)

/-- C6: for every snapshot, `getTags` returns the user tags — the comma-split
of the trimmed `tags` attribute, empty when that attribute is empty or
whitespace-only — followed exactly by the seven derived tags in fixed order
`clusterID:`, `reclaimpolicy:`, `storageclass:`, `namespace:`, `pvc:`,
`pv:`, `provisioner:` (so an empty user-tag string contributes no empty
leading entry). -/
theorem getTags_user_then_derived (pvw : PVWatcher) (pv : PersistentVolume)
    (csi : CSIPersistentVolumeSource) (claimRef : ObjectReference)
    (hcsi : pv.Spec.CSI = some csi) (hcr : pv.Spec.ClaimRef = some claimRef) :
    getTags pvw pv = some (mapGet csi.VolumeAttributes VolumeCRN,
      (if (trimSpace (mapGet csi.VolumeAttributes "tags")).length > 0
       then splitComma (trimSpace (mapGet csi.VolumeAttributes "tags"))
       else []) ++
      [ClusterIDLabel ++ ":" ++ mapGet csi.VolumeAttributes ClusterIDLabel,
       ReclaimPolicyTag ++ pv.Spec.PersistentVolumeReclaimPolicy,
       StorageClassTag ++ pv.Spec.StorageClassName,
       NameSpaceTag ++ claimRef.Namespace,
       PVCNameTag ++ claimRef.Name,
       PVNameTag ++ pv.ObjectMeta.Name,
       ProvisionerTag ++ pvw.provisionerName]) := by
  simp only [getTags]
  rw [hcsi, hcr]
  simp [List.append_assoc]

/-- Witness for C6: with user-tag string `"a,b"` the tag list is exactly the
two user tags followed by the seven derived tags, and with a whitespace-only
user-tag string it starts directly with the derived suffix. -/
theorem getTags_user_then_derived_witness :
    getTags pvwEx (pvEx VolumeBound) =
      some ("crn:1",
        ["a", "b", "clusterID:cluster-1", "reclaimpolicy:Delete",
         "storageclass:sc", "namespace:default", "pvc:claim-1", "pv:pv-1",
         "provisioner:vpc.block.csi.ibm.io"]) ∧
    getTags pvwEx (pvExNoTags VolumeBound) =
      some ("crn:2",
        ["clusterID:cluster-1", "reclaimpolicy:Delete", "storageclass:sc",
         "namespace:default", "pvc:claim-1", "pv:pv-2",
         "provisioner:vpc.block.csi.ibm.io"]) :=
  ⟨(getTags_user_then_derived pvwEx (pvEx VolumeBound) csiEx claimRefEx rfl
      rfl).trans (by decide),
   (getTags_user_then_derived pvwEx (pvExNoTags VolumeBound) csiExNoTags
      claimRefEx rfl rfl).trans (by decide)⟩

/-- C7 counterexample: the claim says any input smaller than one gibibyte
yields 0, but `BytesToGiB` takes a signed `int64`, and on the negative input
`-(2^31)` — which is smaller than one gibibyte — it yields `-2`, not 0. -/
theorem bytesToGiB_negative_counterexample :
    ((-(2 ^ 31) : Int) < 2 ^ 30) ∧ BytesToGiB (-(2 ^ 31)) = -2 ∧
      BytesToGiB (-(2 ^ 31)) ≠ 0 :=
  ⟨by decide, by decide, by decide⟩

/-- C7 amended: `BytesToGiB` is exact integer division by `2^30` truncating
toward zero — `BytesToGiB 0 = 0`, `BytesToGiB (2^30 - 1) = 0`,
`BytesToGiB (2^30) = 1`, `BytesToGiB (2^31) = 2` — and any *nonnegative*
input smaller than one gibibyte yields 0 rather than an error (a negative
input yields a nonpositive quotient instead, see the counterexample). -/
theorem bytesToGiB_amended :
    (∀ b : Int, BytesToGiB b = Int.tdiv b (2 ^ 30)) ∧
      BytesToGiB 0 = 0 ∧ BytesToGiB (2 ^ 30 - 1) = 0 ∧
      BytesToGiB (2 ^ 30) = 1 ∧ BytesToGiB (2 ^ 31) = 2 ∧
      ∀ b : Int, 0 ≤ b → b < 2 ^ 30 → BytesToGiB b = 0 := by
  refine ⟨fun b => ?_, by decide, by decide, by decide, by decide,
    fun b h0 h1 => ?_⟩
  · unfold BytesToGiB GiB
    norm_num
  · unfold BytesToGiB
    have hg : GiB = 2 ^ 30 := by norm_num [GiB]
    rw [hg]
    exact Int.tdiv_eq_zero_of_lt h0 h1

/-- Witness for C7 (amended): 5 bytes is nonnegative, smaller than one
gibibyte, and converts to 0 GiB. -/
theorem bytesToGiB_amended_witness :
    (0 : Int) ≤ 5 ∧ (5 : Int) < 2 ^ 30 ∧ BytesToGiB 5 = 0 :=
  ⟨by decide, by decide, bytesToGiB_amended.2.2.2.2.2 5 (by decide) (by decide)⟩

/-- C8: `filter` returns true iff the object is a non-nil snapshot with
driver (CSI) information present and a driver identifier equal to the
configured provisioner name; a nil object, a snapshot lacking CSI
information, or a differing driver identifier yields false. -/
theorem filter_true_iff (pvw : PVWatcher) (obj : Option PersistentVolume) :
    filter pvw obj = true ↔
      ∃ pv csi, obj = some pv ∧ pv.Spec.CSI = some csi ∧
        csi.Driver = pvw.provisionerName := by
  cases obj with
  | none => simp [filter]
  | some pv =>
    cases hcsi : pv.Spec.CSI with
    | none => simp [filter, hcsi]
    | some csi => simp [filter, hcsi]

/-- Helper: when an old snapshot is present and the task completed without
taking the skip return, the result is that of the session phase run with the
two snapshots' status phases. -/
theorem updateVolume_not_skipped (pvw : PVWatcher)
    (oldpv newpv : PersistentVolume) (env : ProviderEnv)
    (r : UpdateVolumeResult)
    (hr : updateVolume pvw (some oldpv) newpv env = some r)
    (hns : r.skipped = false) :
    updateVolumeSessionPhase pvw newpv env newpv.Status.Phase
      oldpv.Status.Phase = some r := by
  simp only [updateVolume] at hr
  rcases hn : newpv.Spec.CSI with _ | newcsi
  · rw [hn] at hr
    simp at hr
  · rcases ho : oldpv.Spec.CSI with _ | oldcsi
    · rw [hn, ho] at hr
      simp at hr
    · rw [hn, ho] at hr
      simp only at hr
      by_cases hcond : (newpv.Status.Phase == oldpv.Status.Phase &&
          (mapGetInt oldpv.Spec.Capacity ResourceStorage ==
            mapGetInt newpv.Spec.Capacity ResourceStorage) &&
          (mapGet oldcsi.VolumeAttributes IOPSLabel ==
            mapGet newcsi.VolumeAttributes IOPSLabel)) = true
      · rw [if_pos hcond] at hr
        injection hr with h
        subst h
        simp at hns
      · rw [if_neg hcond] at hr
        exact hr

/-- C9: when the metadata-update call fails, a warning-level notification
carrying the error text is emitted and the task neither aborts nor retries —
the metadata call is made exactly once and the tag-sync gate is still
evaluated afterward; when the gate fires, the tag-sync call is made exactly
once, emitting a normal-level success notification on success and a
warning-level notification with the error text on failure
(`tagSyncEventsOf`). -/
theorem update_protocol_error_handling (pvw : PVWatcher)
    (oldpv newpv : PersistentVolume) (env : ProviderEnv)
    (r : UpdateVolumeResult) (e : String)
    (hs : env.session = some ProviderSession.iksVpcSession)
    (he : env.metadataErr = some e)
    (hr : updateVolume pvw (some oldpv) newpv env = some r)
    (hns : r.skipped = false) :
    r.metadataCalls = 1 ∧
      r.events = Event.mk EventTypeWarning VolumeUpdateEventReason e ::
        (if oldpv.Status.Phase ≠ VolumeBound ∧
            newpv.Status.Phase = VolumeBound
         then tagSyncEventsOf env.tagSyncErr else []) ∧
      r.tagSyncCalls =
        (if oldpv.Status.Phase ≠ VolumeBound ∧
            newpv.Status.Phase = VolumeBound
         then 1 else 0) := by
  have hsess := updateVolume_not_skipped pvw oldpv newpv env r hr hns
  have h := sessionPhase_iks pvw newpv env newpv.Status.Phase
    oldpv.Status.Phase r hs hsess
  have hgiff : (newpv.Status.Phase ≠ oldpv.Status.Phase ∧
      newpv.Status.Phase = VolumeBound) ↔
      (oldpv.Status.Phase ≠ VolumeBound ∧
        newpv.Status.Phase = VolumeBound) := by
    constructor
    · rintro ⟨h1, h2⟩
      exact ⟨fun hob => h1 (h2.trans hob.symm), h2⟩
    · rintro ⟨h1, h2⟩
      exact ⟨fun heq => h1 (heq.symm.trans h2), h2⟩
  refine ⟨h.2.2.1, ?_, ?_⟩
  · rw [h.2.2.2.2, he]
    rw [if_congr hgiff rfl rfl]
    simp [metaEventsOf]
  · rw [h.2.2.2.1]
    rw [if_congr hgiff rfl rfl]

/-- Witness for C9: under `envBad` (metadata fails with "boom", tag-sync
fails with "tagfail") on a `Pending → Bound` event, the task makes exactly
one call per phase and emits the two warning notifications. -/
theorem update_protocol_error_handling_witness :
    rBothFail.metadataCalls = 1 ∧
      rBothFail.events = Event.mk EventTypeWarning VolumeUpdateEventReason
          "boom" ::
        (if (pvEx VolumePending).Status.Phase ≠ VolumeBound ∧
            (pvEx VolumeBound).Status.Phase = VolumeBound
         then tagSyncEventsOf envBad.tagSyncErr else []) ∧
      rBothFail.tagSyncCalls =
        (if (pvEx VolumePending).Status.Phase ≠ VolumeBound ∧
            (pvEx VolumeBound).Status.Phase = VolumeBound
         then 1 else 0) :=
  update_protocol_error_handling pvwEx (pvEx VolumePending)
    (pvEx VolumeBound) envBad rBothFail "boom" rfl rfl (by decide) rfl

end Watcher
